import Mathlib

/-!
Shallow embedding of `chemcomp_loader/planet_loader.py`.

The module loads planet-formation simulation output (an HDF5 file whose
group `/planet` holds a fixed set of numeric arrays) together with a
configuration mapping, and fans the two 3-D composition arrays out into
per-species views.

Modelling choices:
  * numeric array entries are rationals (`ℚ`); the Python code performs
    only exact array reads and two divisions by unit constants;
  * a 1-D array is a `List ℚ`, a 3-D composition array a
    `List (List (List ℚ))` (step × layer × species), a string array a
    `List String`;
  * an HDF5 file is a possibly-absent `/planet` group, a group a list of
    named nodes; `tables.open_file` failure is modelled by passing
    `Option.none` for the file;
  * Python attributes that a method may or may not have set are `Option`
    fields of the `Planet_class` structure;
  * exceptions (`NoSuchNodeError`, `FileNotFoundError`) are the `Except`
    monad.
-/

/-- A dynamically-typed Python value, as produced by the configuration
evaluation step and stored in `Planet_class` attributes. -/
inductive PyValue where
  | none
  | bool (b : Bool)
  | num (q : ℚ)
  | str (s : String)
  | arr1 (xs : List ℚ)
  deriving DecidableEq, Repr

/-- A 3-D composition array: step × layer × species. -/
abbrev Comp3 := List (List (List ℚ))

/-- A value stored in an HDF5 node of the `/planet` group. -/
inductive H5Value where
  | arr1 (xs : List ℚ)
  | arr3 (xs : Comp3)
  | sarr (xs : List String)
  deriving DecidableEq, Repr

/-- An HDF5 group: a list of named child nodes. -/
structure H5Group where
  nodes : List (String × H5Value)
  deriving DecidableEq, Repr

/-- An HDF5 file as seen by the loader: the `/planet` group, when present. -/
structure H5File where
  planet : Option H5Group
  deriving DecidableEq, Repr

/-- Errors raised during `load_planet`: the file cannot be opened
(`FileNotFoundError`), a node is absent (`NoSuchNodeError`), or a node
does not hold the kind of array the loader reads. -/
inductive LoadError where
  | fileNotFound
  | noSuchNode (name : String)
  | badKind (name : String)
  deriving DecidableEq, Repr

/- ----------------------------------------------------------------- -/
/- Composition views: `Planet_atmo` / `Planet_core`                  -/
/- ----------------------------------------------------------------- -/

/-- `comp[:, layer]` — the numpy slice selecting one layer of the
composition array, leaving a step × species 2-D array. -/
def sliceLayer (comp : Comp3) (layer : Nat) : List (List ℚ) :=
  comp.map (fun step => step.getD layer [])

/-- `m.swapaxes(0, 1)` on a 2-D numpy array. A numpy array is
rectangular, so the column count is the length of the first row
(an array with zero rows has no columns to report). -/
def swapaxes01 (m : List (List ℚ)) : List (List ℚ) :=
  match m with
  | [] => []
  | r :: _ => (List.range r.length).map (fun i => m.map (fun row => row.getD i 0))

/-- `zip(names, slice.swapaxes(0, 1))` followed by `setattr` for each
pair: the attribute map a composition view builds for one layer, as an
association list in iteration order. -/
def viewPairs (names : List String) (comp : Comp3) (layer : Nat) :
    List (String × List ℚ) :=
  names.zip (swapaxes01 (sliceLayer comp layer))

/-- `Planet_atmo.__init__`: element attributes from layer 0 of `comp_a`,
molecule attributes from layer 1, in that `setattr` order. -/
def Planet_atmo (element_array molecule_array : List String) (comp_a : Comp3) :
    List (String × List ℚ) :=
  viewPairs element_array comp_a 0 ++ viewPairs molecule_array comp_a 1

/-- `Planet_core.__init__`: identical fan-out over `comp_c`. -/
def Planet_core (element_array molecule_array : List String) (comp_c : Comp3) :
    List (String × List ℚ) :=
  viewPairs element_array comp_c 0 ++ viewPairs molecule_array comp_c 1

/-- Attribute access on a view object (`atmo.Fe`): the value the last
`setattr` for that name stored. -/
def viewAttr (pairs : List (String × List ℚ)) (name : String) :
    Option (List ℚ) :=
  (pairs.reverse).lookup name

/-- The species-axis length of a composition array, as numpy infers the
shape from rectangular nested data. -/
def speciesLen (comp : Comp3) : Nat :=
  ((comp.headD []).headD []).length

/-- A composition array is rectangular with `nl` layers per step and
`ns` species per layer — the invariant every numpy 3-D array satisfies. -/
def Rect3 (comp : Comp3) (nl ns : Nat) : Prop :=
  ∀ step ∈ comp, step.length = nl ∧ ∀ row ∈ step, row.length = ns

instance (comp : Comp3) (nl ns : Nat) : Decidable (Rect3 comp nl ns) := by
  unfold Rect3; infer_instance

/- ----------------------------------------------------------------- -/
/- `Planet_class` and `load_planet`                                   -/
/- ----------------------------------------------------------------- -/

/-- `AU = (1*u.au).cgs.value`: one astronomical unit in centimetres. -/
def AU : ℚ := 14959787070000

/-- `Myr = (1*u.Myr).cgs.value`: one mega-year in seconds. -/
def Myr : ℚ := 31557600000000

/-- The attribute bag of a `Planet_class` instance. A Python attribute a
method may not have set yet is an `Option` field. `a_p` is first set by
`load_planet` to a rescaled 1-D array and then overwritten by
`load_parameters_from_config` with an evaluated configuration value, so
it holds a dynamically-typed `PyValue`. -/
structure Planet_class where
  disc_quantities : Option (List String) := Option.none
  M : Option (List ℚ) := Option.none
  M_a : Option (List ℚ) := Option.none
  M_c : Option (List ℚ) := Option.none
  M_z_gas : Option (List ℚ) := Option.none
  M_z_peb : Option (List ℚ) := Option.none
  T : Option (List ℚ) := Option.none
  a_p : Option PyValue := Option.none
  comp_a : Option Comp3 := Option.none
  comp_c : Option Comp3 := Option.none
  fSigma : Option (List ℚ) := Option.none
  gamma_norm : Option (List ℚ) := Option.none
  gamma_tot : Option (List ℚ) := Option.none
  m_dot_a_chem_gas : Option (List ℚ) := Option.none
  m_dot_a_chem_peb : Option (List ℚ) := Option.none
  m_dot_a_gas : Option (List ℚ) := Option.none
  m_dot_a_peb : Option (List ℚ) := Option.none
  m_dot_c_chem_gas : Option (List ℚ) := Option.none
  m_dot_c_chem_peb : Option (List ℚ) := Option.none
  m_dot_c_gas : Option (List ℚ) := Option.none
  m_dot_c_peb : Option (List ℚ) := Option.none
  m_dot_gas : Option (List ℚ) := Option.none
  m_dot_peb : Option (List ℚ) := Option.none
  peb_iso : Option (List ℚ) := Option.none
  pebble_flux : Option (List ℚ) := Option.none
  regime_gas : Option (List ℚ) := Option.none
  regime_peb : Option (List ℚ) := Option.none
  sigma_g : Option (List ℚ) := Option.none
  sigma_peb : Option (List ℚ) := Option.none
  t : Option (List ℚ) := Option.none
  tau_m : Option (List ℚ) := Option.none
  units : Option (List String) := Option.none
  matter_removal : Option PyValue := Option.none
  use_heat_torque : Option PyValue := Option.none
  use_dynamical_torque : Option PyValue := Option.none
  migration : Option PyValue := Option.none
  M0_fact : Option PyValue := Option.none
  t_0 : Option PyValue := Option.none
  rho_c : Option PyValue := Option.none
  r_in : Option PyValue := Option.none
  keep_peb_iso : Option PyValue := Option.none
  use_pebiso_diffusion : Option PyValue := Option.none
  R_pla : Option PyValue := Option.none
  rho_pla : Option PyValue := Option.none
  deriving DecidableEq, Repr

/-- Reading `np.array(f.root.planet.<name>)` for a 1-D numeric node:
absent node raises `NoSuchNodeError`. -/
def readArr1 (g : H5Group) (name : String) : Except LoadError (List ℚ) :=
  match g.nodes.lookup name with
  | Option.none => Except.error (LoadError.noSuchNode name)
  | some (H5Value.arr1 xs) => Except.ok xs
  | some _ => Except.error (LoadError.badKind name)

/-- Reading a 3-D composition node. -/
def readArr3 (g : H5Group) (name : String) : Except LoadError Comp3 :=
  match g.nodes.lookup name with
  | Option.none => Except.error (LoadError.noSuchNode name)
  | some (H5Value.arr3 xs) => Except.ok xs
  | some _ => Except.error (LoadError.badKind name)

/-- Reading the string-array `units` node. -/
def readSarr (g : H5Group) (name : String) : Except LoadError (List String) :=
  match g.nodes.lookup name with
  | Option.none => Except.error (LoadError.noSuchNode name)
  | some (H5Value.sarr xs) => Except.ok xs
  | some _ => Except.error (LoadError.badKind name)

/-- `f.get_node('/planet')`: raises `NoSuchNodeError` when absent. -/
def get_node_planet (f : H5File) : Except LoadError H5Group :=
  match f.planet with
  | Option.none => Except.error (LoadError.noSuchNode "/planet")
  | some g => Except.ok g

/-- Lexicographic comparison of character lists by code point. -/
def charListLe : List Char → List Char → Bool
  | [], _ => true
  | _ :: _, [] => false
  | a :: as, b :: bs =>
      if a.toNat < b.toNat then true
      else if b.toNat < a.toNat then false
      else charListLe as bs

/-- Lexicographic string order, the order Python's `sorted` uses. -/
def strLe (a b : String) : Bool := charListLe a.toList b.toList

def insertSorted (a : String) : List String → List String
  | [] => [a]
  | b :: bs => if strLe a b then a :: b :: bs else b :: insertSorted a bs

/-- Stable insertion sort by `≤`, modelling the alphabetical order in
which Python's `dir` lists attribute names. -/
def sortStrings (l : List String) : List String :=
  l.foldr insertSorted []

/-- `dir(f.get_node('/planet'))`: Python's `dir` returns the object's
attribute names sorted alphabetically; on a pytables group the child
nodes appear as attributes and the group's own machinery is
underscore-prefixed, so the non-underscore entries are exactly the child
node names. -/
def dirList (g : H5Group) : List String :=
  sortStrings (g.nodes.map Prod.fst)

/-- `Planet_class.load_planet`: opens the file, reads every field of the
`/planet` group, rescales `a_p` by `AU` and `t` by `Myr`, and stores each
value as an attribute. An unopenable file (modelled by `Option.none`)
raises `FileNotFoundError`; a missing group or node raises
`NoSuchNodeError`. -/
def load_planet (s : Planet_class) (file : Option H5File) :
    Except LoadError Planet_class := do
  let f ← match file with
    | Option.none => Except.error LoadError.fileNotFound
    | some f => Except.ok f
  let g ← get_node_planet f
  let dq := (dirList g).filter (fun q => q.front != '_')
  let vM ← readArr1 g "M"
  let vM_a ← readArr1 g "M_a"
  let vM_c ← readArr1 g "M_c"
  let vM_z_gas ← readArr1 g "M_z_gas"
  let vM_z_peb ← readArr1 g "M_z_peb"
  let vT ← readArr1 g "T"
  let va_p ← readArr1 g "a_p"
  let vcomp_a ← readArr3 g "comp_a"
  let vcomp_c ← readArr3 g "comp_c"
  let vfSigma ← readArr1 g "fSigma"
  let vgamma_norm ← readArr1 g "gamma_norm"
  let vgamma_tot ← readArr1 g "gamma_tot"
  let vm_dot_a_chem_gas ← readArr1 g "m_dot_a_chem_gas"
  let vm_dot_a_chem_peb ← readArr1 g "m_dot_a_chem_peb"
  let vm_dot_a_gas ← readArr1 g "m_dot_a_gas"
  let vm_dot_a_peb ← readArr1 g "m_dot_a_peb"
  let vm_dot_c_chem_gas ← readArr1 g "m_dot_c_chem_gas"
  let vm_dot_c_chem_peb ← readArr1 g "m_dot_c_chem_peb"
  let vm_dot_c_gas ← readArr1 g "m_dot_c_gas"
  let vm_dot_c_peb ← readArr1 g "m_dot_c_peb"
  let vm_dot_gas ← readArr1 g "m_dot_gas"
  let vm_dot_peb ← readArr1 g "m_dot_peb"
  let vpeb_iso ← readArr1 g "peb_iso"
  let vpebble_flux ← readArr1 g "pebble_flux"
  let vregime_gas ← readArr1 g "regime_gas"
  let vregime_peb ← readArr1 g "regime_peb"
  let vsigma_g ← readArr1 g "sigma_g"
  let vsigma_peb ← readArr1 g "sigma_peb"
  let vt ← readArr1 g "t"
  let vtau_m ← readArr1 g "tau_m"
  let vunits ← readSarr g "units"
  Except.ok { s with
    disc_quantities := some dq,
    M := some vM,
    M_a := some vM_a,
    M_c := some vM_c,
    M_z_gas := some vM_z_gas,
    M_z_peb := some vM_z_peb,
    T := some vT,
    a_p := some (PyValue.arr1 (va_p.map (fun x => x / AU))),
    comp_a := some vcomp_a,
    comp_c := some vcomp_c,
    fSigma := some vfSigma,
    gamma_norm := some vgamma_norm,
    gamma_tot := some vgamma_tot,
    m_dot_a_chem_gas := some vm_dot_a_chem_gas,
    m_dot_a_chem_peb := some vm_dot_a_chem_peb,
    m_dot_a_gas := some vm_dot_a_gas,
    m_dot_a_peb := some vm_dot_a_peb,
    m_dot_c_chem_gas := some vm_dot_c_chem_gas,
    m_dot_c_chem_peb := some vm_dot_c_chem_peb,
    m_dot_c_gas := some vm_dot_c_gas,
    m_dot_c_peb := some vm_dot_c_peb,
    m_dot_gas := some vm_dot_gas,
    m_dot_peb := some vm_dot_peb,
    peb_iso := some vpeb_iso,
    pebble_flux := some vpebble_flux,
    regime_gas := some vregime_gas,
    regime_peb := some vregime_peb,
    sigma_g := some vsigma_g,
    sigma_peb := some vsigma_peb,
    t := some (vt.map (fun x => x / Myr)),
    tau_m := some vtau_m,
    units := some vunits }

/-- The `with tables.open_file(...)` block of `load_planet`, with the
open-handle count made explicit: opening the file acquires a handle and
the `with` statement releases it on every exit path, normal or raising;
a failed open acquires nothing. -/
def load_planet_tracked (s : Planet_class) (file : Option H5File)
    (handles : Nat) : Except LoadError Planet_class × Nat :=
  match file with
  | Option.none => (Except.error LoadError.fileNotFound, handles)
  | some f => (load_planet s (some f), handles + 1 - 1)

/- ----------------------------------------------------------------- -/
/- Configuration merge                                                -/
/- ----------------------------------------------------------------- -/

/-- Modelled from the spec: `import_config` (not under `src/`) parses the
configuration file into a mapping of mappings whose leaf values are
literal/expression text; we take that parsed mapping as input. -/
structure Config where
  sections : List (String × List (String × String))
  deriving DecidableEq, Repr

def digitsVal (cs : List Char) : Nat :=
  cs.foldl (fun acc c => acc * 10 + (c.toNat - 48)) 0

/-- Modelled from the spec: the numeric-literal case of the
expression-evaluation collaborator — an optional sign, integer digits,
and an optional fractional part. -/
def parseNum (s : String) : Option ℚ :=
  let signed : ℚ × List Char :=
    match s.toList with
    | '-' :: rest => (-1, rest)
    | cs => (1, cs)
  let intPart := signed.2.takeWhile Char.isDigit
  let rest := signed.2.drop intPart.length
  match rest with
  | [] =>
      if intPart.isEmpty then Option.none
      else some (signed.1 * digitsVal intPart)
  | '.' :: frac =>
      if frac.all Char.isDigit && !(intPart.isEmpty && frac.isEmpty) then
        some (signed.1 *
          ((digitsVal intPart : ℚ) + (digitsVal frac : ℚ) / 10 ^ frac.length))
      else Option.none
  | _ => Option.none

/-- Modelled from the spec: `eval_kwargs` (defined alongside
`import_config`, not under `src/`) converts a literal textual value into
its typed runtime value — booleans, numbers, null — and passes a missing
value (`None`) through unchanged; text outside the modelled literal
fragment stays a string. -/
def eval_kwargs (v : Option String) : PyValue :=
  match v with
  | Option.none => PyValue.none
  | some s =>
      if s = "True" then PyValue.bool true
      else if s = "False" then PyValue.bool false
      else if s = "None" then PyValue.none
      else
        match parseNum s with
        | some q => PyValue.num q
        | Option.none => PyValue.str s

/-- `Planet_class.load_parameters_from_config`: reads the two recognized
sections (absent sections default to an empty mapping) and stores the
thirteen evaluated options as attributes, `a_p` among them. -/
def load_parameters_from_config (s : Planet_class) (config : Config) :
    Planet_class :=
  let config_disk := (config.sections.lookup "config_planet").getD []
  let config_planetesimal_accretion :=
    (config.sections.lookup "config_planetesimal_accretion").getD []
  { s with
    matter_removal := some (eval_kwargs (config_disk.lookup "matter_removal")),
    use_heat_torque := some (eval_kwargs (config_disk.lookup "use_heat_torque")),
    use_dynamical_torque :=
      some (eval_kwargs (config_disk.lookup "use_dynamical_torque")),
    migration := some (eval_kwargs (config_disk.lookup "migration")),
    M0_fact := some (eval_kwargs (config_disk.lookup "M0_fact")),
    a_p := some (eval_kwargs (config_disk.lookup "a_p")),
    t_0 := some (eval_kwargs (config_disk.lookup "t_0")),
    rho_c := some (eval_kwargs (config_disk.lookup "rho_c")),
    r_in := some (eval_kwargs (config_disk.lookup "r_in")),
    keep_peb_iso := some (eval_kwargs (config_disk.lookup "keep_peb_iso")),
    use_pebiso_diffusion :=
      some (eval_kwargs (config_disk.lookup "use_pebiso_diffusion")),
    R_pla :=
      some (eval_kwargs (config_planetesimal_accretion.lookup "R_pla")),
    rho_pla :=
      some (eval_kwargs (config_planetesimal_accretion.lookup "rho_pla")) }

/-- `Planet_class.__init__` as far as the record is concerned: a fresh
attribute bag, `load_planet`, then `load_parameters_from_config`. The
trailing `Planet_atmo`/`Planet_core` constructions read `comp_a`/`comp_c`
but set no record field. -/
def Planet_class_init (file : Option H5File) (config : Config) :
    Except LoadError Planet_class :=
  (load_planet {} file).map (fun s => load_parameters_from_config s config)

/-- The fixed set of node names `load_planet` reads from `/planet`. -/
def requiredNodes : List String :=
  ["M", "M_a", "M_c", "M_z_gas", "M_z_peb", "T", "a_p", "comp_a", "comp_c",
   "fSigma", "gamma_norm", "gamma_tot", "m_dot_a_chem_gas",
   "m_dot_a_chem_peb", "m_dot_a_gas", "m_dot_a_peb", "m_dot_c_chem_gas",
   "m_dot_c_chem_peb", "m_dot_c_gas", "m_dot_c_peb", "m_dot_gas",
   "m_dot_peb", "peb_iso", "pebble_flux", "regime_gas", "regime_peb",
   "sigma_g", "sigma_peb", "t", "tau_m", "units"]

/-- A small concrete well-formed `/planet` group used to evaluate the
loader at a specific input. -/
def sampleGroup : H5Group :=
  ⟨[("M", H5Value.arr1 [1]), ("M_a", H5Value.arr1 [2]),
    ("M_c", H5Value.arr1 [3]), ("M_z_gas", H5Value.arr1 [4]),
    ("M_z_peb", H5Value.arr1 [5]), ("T", H5Value.arr1 [6]),
    ("a_p", H5Value.arr1 [7]), ("comp_a", H5Value.arr3 [[[1], [1]]]),
    ("comp_c", H5Value.arr3 [[[2], [2]]]), ("fSigma", H5Value.arr1 [8]),
    ("gamma_norm", H5Value.arr1 [9]), ("gamma_tot", H5Value.arr1 [10]),
    ("m_dot_a_chem_gas", H5Value.arr1 [11]),
    ("m_dot_a_chem_peb", H5Value.arr1 [12]),
    ("m_dot_a_gas", H5Value.arr1 [13]), ("m_dot_a_peb", H5Value.arr1 [14]),
    ("m_dot_c_chem_gas", H5Value.arr1 [15]),
    ("m_dot_c_chem_peb", H5Value.arr1 [16]),
    ("m_dot_c_gas", H5Value.arr1 [17]), ("m_dot_c_peb", H5Value.arr1 [18]),
    ("m_dot_gas", H5Value.arr1 [19]), ("m_dot_peb", H5Value.arr1 [20]),
    ("peb_iso", H5Value.arr1 [21]), ("pebble_flux", H5Value.arr1 [22]),
    ("regime_gas", H5Value.arr1 [23]), ("regime_peb", H5Value.arr1 [24]),
    ("sigma_g", H5Value.arr1 [25]), ("sigma_peb", H5Value.arr1 [26]),
    ("t", H5Value.arr1 [27]), ("tau_m", H5Value.arr1 [28]),
    ("units", H5Value.sarr ["cgs"])]⟩

def sampleFile : H5File := ⟨some sampleGroup⟩

/-- `sampleGroup` with the required node `t` removed. -/
def sampleGroupMissingT : H5Group :=
  ⟨sampleGroup.nodes.filter (fun p => p.1 != "t")⟩

/-- Whether a load attempt raised instead of returning a record. -/
def isError : Except LoadError Planet_class → Bool
  | Except.error _ => true
  | Except.ok _ => false

-- Helper lemmas about the fan-out.

theorem sliceLayer_mem_length {comp : Comp3} {nl ns layer : Nat}
    (hrect : Rect3 comp nl ns) (hlayer : layer < nl) :
    ∀ row ∈ sliceLayer comp layer, row.length = ns := by
  intro row hrow
  simp only [sliceLayer, List.mem_map] at hrow
  obtain ⟨step, hstep, rfl⟩ := hrow
  obtain ⟨hlen, hrows⟩ := hrect step hstep
  have hl : layer < step.length := hlen ▸ hlayer
  have : step.getD layer [] = step[layer] := by
    simp [List.getD_eq_getElem?_getD, List.getElem?_eq_getElem hl]
  rw [this]
  exact hrows _ (List.getElem_mem hl)

theorem swapaxes01_length {m : List (List ℚ)} {ns : Nat}
    (h : ∀ row ∈ m, row.length = ns) (hne : m ≠ []) :
    (swapaxes01 m).length = ns := by
  match m with
  | [] => exact absurd rfl hne
  | r :: rs =>
      simp [swapaxes01, h r (List.mem_cons_self r rs)]

theorem swapaxes01_getElem {m : List (List ℚ)} {ns i : Nat}
    (h : ∀ row ∈ m, row.length = ns) (hne : m ≠ []) (hi : i < ns) :
    (swapaxes01 m)[i]? = some (m.map (fun row => row.getD i 0)) := by
  match m with
  | [] => exact absurd rfl hne
  | r :: rs =>
      have hr : r.length = ns := h r (List.mem_cons_self r rs)
      simp [swapaxes01, hr, List.getElem?_map, List.getElem?_range hi]

theorem sliceLayer_ne_nil {comp : Comp3} (layer : Nat) (hne : comp ≠ []) :
    sliceLayer comp layer ≠ [] := by
  simpa [sliceLayer] using hne

theorem viewPairs_getElem (names : List String) {comp : Comp3}
    {layer ns i : Nat} (hrect : Rect3 comp 2 ns) (hlayer : layer < 2)
    (hne : comp ≠ []) (hi : i < ns) (hin : i < names.length) :
    (viewPairs names comp layer)[i]? =
      some (names.getD i "",
        comp.map (fun step => (step.getD layer []).getD i 0)) := by
  have hrows := sliceLayer_mem_length hrect hlayer
  have hmne := sliceLayer_ne_nil layer hne
  have hswap := swapaxes01_getElem hrows hmne hi
  have hnames : names[i]? = some (names.getD i "") := by
    simp [List.getElem?_eq_getElem hin]
  simp only [viewPairs, List.zip, List.getElem?_zipWith, hswap, hnames]
  simp [sliceLayer, List.map_map]

theorem viewPairs_length {names : List String} {comp : Comp3}
    {layer ns : Nat} (hrect : Rect3 comp 2 ns) (hlayer : layer < 2)
    (hne : comp ≠ []) :
    (viewPairs names comp layer).length = min names.length ns := by
  have hrows := sliceLayer_mem_length hrect hlayer
  have hmne := sliceLayer_ne_nil layer hne
  simp [viewPairs, List.length_zip, swapaxes01_length hrows hmne]

/-- C3: for every composition array and name lists whose lengths equal the
species-axis length, the view's pair list, iterated in input-name order,
pairs the `i`-th name with exactly the original species-axis values
`comp[t, layer, i]` for every step `t` — the round-trip identity, for the
element layer and the molecule layer of both the atmosphere and core
views. -/
theorem composition_view_round_trip
    (element_array molecule_array : List String) (comp_a : Comp3)
    (hrect : Rect3 comp_a 2 (speciesLen comp_a))
    (hE : element_array.length = speciesLen comp_a)
    (hM : molecule_array.length = speciesLen comp_a) :
    ∀ i, i < speciesLen comp_a →
      (Planet_atmo element_array molecule_array comp_a)[i]? =
        some (element_array.getD i "",
          comp_a.map (fun step => (step.getD 0 []).getD i 0)) ∧
      (Planet_atmo element_array molecule_array comp_a)[speciesLen comp_a + i]? =
        some (molecule_array.getD i "",
          comp_a.map (fun step => (step.getD 1 []).getD i 0)) ∧
      (Planet_core element_array molecule_array comp_a)[i]? =
        some (element_array.getD i "",
          comp_a.map (fun step => (step.getD 0 []).getD i 0)) ∧
      (Planet_core element_array molecule_array comp_a)[speciesLen comp_a + i]? =
        some (molecule_array.getD i "",
          comp_a.map (fun step => (step.getD 1 []).getD i 0)) := by
  intro i hi
  have hne : comp_a ≠ [] := by
    intro h
    rw [h] at hi
    simp [speciesLen] at hi
  have hlenE : (viewPairs element_array comp_a 0).length = speciesLen comp_a := by
    rw [viewPairs_length hrect (by omega) hne, hE, Nat.min_self]
  have hiE : i < (viewPairs element_array comp_a 0).length := by omega
  have h0 := viewPairs_getElem element_array hrect
    (by omega : (0:Nat) < 2) hne hi (by omega)
  have h1 := viewPairs_getElem molecule_array hrect
    (by omega : (1:Nat) < 2) hne hi (by omega)
  refine ⟨?_, ?_, ?_, ?_⟩ <;>
    simp only [Planet_atmo, Planet_core]
  · rw [List.getElem?_append_left hiE]; exact h0
  · rw [List.getElem?_append_right (by omega), hlenE,
      Nat.add_sub_cancel_left]; exact h1
  · rw [List.getElem?_append_left hiE]; exact h0
  · rw [List.getElem?_append_right (by omega), hlenE,
      Nat.add_sub_cancel_left]; exact h1

/-- C3 witness: 3 time steps, elements `["Fe","Si"]`, layer 0 equal to
`[[1,2],[3,4],[5,6]]`: the atmosphere view's first entries map `Fe` to
`[1,3,5]` and `Si` to `[2,4,6]`. -/
theorem composition_view_round_trip_witness :
    (Planet_atmo ["Fe", "Si"] ["X", "Y"]
        [[[1,2],[0,0]], [[3,4],[0,0]], [[5,6],[0,0]]])[0]? =
      some ("Fe", [1,3,5]) ∧
    (Planet_atmo ["Fe", "Si"] ["X", "Y"]
        [[[1,2],[0,0]], [[3,4],[0,0]], [[5,6],[0,0]]])[1]? =
      some ("Si", [2,4,6]) := by
  have h0 := (composition_view_round_trip ["Fe", "Si"] ["X", "Y"]
    [[[1,2],[0,0]], [[3,4],[0,0]], [[5,6],[0,0]]]
    (by decide) (by decide) (by decide) 0 (by decide)).1
  have h1 := (composition_view_round_trip ["Fe", "Si"] ["X", "Y"]
    [[[1,2],[0,0]], [[3,4],[0,0]], [[5,6],[0,0]]]
    (by decide) (by decide) (by decide) 1 (by decide)).1
  exact ⟨h0.trans (by decide), h1.trans (by decide)⟩

/-- C7: for every name list whose length differs from the species-axis
length, view construction still succeeds: the zip truncates to the
shorter of the two lengths, and produces entries only for the
overlapping prefix. -/
theorem view_zip_truncates (names : List String) (comp : Comp3)
    (layer ns : Nat) (hrect : Rect3 comp 2 ns) (hlayer : layer < 2)
    (hne : comp ≠ []) (_hdiff : names.length ≠ ns) :
    (viewPairs names comp layer).length = min names.length ns ∧
    ∀ i, i < min names.length ns →
      (viewPairs names comp layer)[i]? =
        some (names.getD i "",
          comp.map (fun step => (step.getD layer []).getD i 0)) := by
  refine ⟨viewPairs_length hrect hlayer hne, ?_⟩
  intro i hi
  exact viewPairs_getElem names hrect hlayer hne (by omega) (by omega)

/-- C7 witness: one name against two species truncates to one entry. -/
theorem view_zip_truncates_witness :
    (viewPairs ["Fe"] [[[1,2],[0,0]], [[3,4],[0,0]], [[5,6],[0,0]]] 0).length
        = 1 ∧
    (viewPairs ["Fe"] [[[1,2],[0,0]], [[3,4],[0,0]], [[5,6],[0,0]]] 0)[0]? =
      some ("Fe", [1,3,5]) := by
  have h := view_zip_truncates ["Fe"]
    [[[1,2],[0,0]], [[3,4],[0,0]], [[5,6],[0,0]]] 0 2
    (by decide) (by omega) (by decide) (by decide)
  exact ⟨h.1.trans (by decide), (h.2 0 (by decide)).trans (by decide)⟩

/- ----------------------------------------------------------------- -/
/- Lemmas about `load_planet`                                         -/
/- ----------------------------------------------------------------- -/

theorem exceptBind_ok {ε α β : Type} {x : Except ε α}
    {k : α → Except ε β} {b : β} (h : x >>= k = Except.ok b) :
    ∃ a, x = Except.ok a ∧ k a = Except.ok b := by
  cases x with
  | error e => exact absurd h (fun hh => Except.noConfusion hh)
  | ok a => exact ⟨a, rfl, h⟩

theorem except_ok_bind {ε α β : Type} (a : α) (k : α → Except ε β) :
    (Except.ok a >>= k) = k a := rfl

theorem except_error_bind {ε α β : Type} (e : ε) (k : α → Except ε β) :
    ((Except.error e : Except ε α) >>= k) = Except.error e := rfl

theorem load_planet_ok {s : Planet_class} {g : H5Group}
    {vM vM_a vM_c vM_z_gas vM_z_peb vT va_p vfSigma vgamma_norm vgamma_tot
      vmdacg vmdacp vmdag vmdap vmdccg vmdccp vmdcg vmdcp vmdg vmdp
      vpeb_iso vpebble_flux vregime_gas vregime_peb vsigma_g vsigma_peb
      vt vtau_m : List ℚ}
    {vcomp_a vcomp_c : Comp3} {vunits : List String}
    (hM : readArr1 g "M" = Except.ok vM)
    (hM_a : readArr1 g "M_a" = Except.ok vM_a)
    (hM_c : readArr1 g "M_c" = Except.ok vM_c)
    (hM_z_gas : readArr1 g "M_z_gas" = Except.ok vM_z_gas)
    (hM_z_peb : readArr1 g "M_z_peb" = Except.ok vM_z_peb)
    (hT : readArr1 g "T" = Except.ok vT)
    (ha_p : readArr1 g "a_p" = Except.ok va_p)
    (hcomp_a : readArr3 g "comp_a" = Except.ok vcomp_a)
    (hcomp_c : readArr3 g "comp_c" = Except.ok vcomp_c)
    (hfSigma : readArr1 g "fSigma" = Except.ok vfSigma)
    (hgamma_norm : readArr1 g "gamma_norm" = Except.ok vgamma_norm)
    (hgamma_tot : readArr1 g "gamma_tot" = Except.ok vgamma_tot)
    (hmdacg : readArr1 g "m_dot_a_chem_gas" = Except.ok vmdacg)
    (hmdacp : readArr1 g "m_dot_a_chem_peb" = Except.ok vmdacp)
    (hmdag : readArr1 g "m_dot_a_gas" = Except.ok vmdag)
    (hmdap : readArr1 g "m_dot_a_peb" = Except.ok vmdap)
    (hmdccg : readArr1 g "m_dot_c_chem_gas" = Except.ok vmdccg)
    (hmdccp : readArr1 g "m_dot_c_chem_peb" = Except.ok vmdccp)
    (hmdcg : readArr1 g "m_dot_c_gas" = Except.ok vmdcg)
    (hmdcp : readArr1 g "m_dot_c_peb" = Except.ok vmdcp)
    (hmdg : readArr1 g "m_dot_gas" = Except.ok vmdg)
    (hmdp : readArr1 g "m_dot_peb" = Except.ok vmdp)
    (hpeb_iso : readArr1 g "peb_iso" = Except.ok vpeb_iso)
    (hpebble_flux : readArr1 g "pebble_flux" = Except.ok vpebble_flux)
    (hregime_gas : readArr1 g "regime_gas" = Except.ok vregime_gas)
    (hregime_peb : readArr1 g "regime_peb" = Except.ok vregime_peb)
    (hsigma_g : readArr1 g "sigma_g" = Except.ok vsigma_g)
    (hsigma_peb : readArr1 g "sigma_peb" = Except.ok vsigma_peb)
    (ht : readArr1 g "t" = Except.ok vt)
    (htau_m : readArr1 g "tau_m" = Except.ok vtau_m)
    (hunits : readSarr g "units" = Except.ok vunits) :
    load_planet s (some ⟨some g⟩) = Except.ok { s with
      disc_quantities := some ((dirList g).filter (fun q => q.front != '_')),
      M := some vM,
      M_a := some vM_a,
      M_c := some vM_c,
      M_z_gas := some vM_z_gas,
      M_z_peb := some vM_z_peb,
      T := some vT,
      a_p := some (PyValue.arr1 (va_p.map (fun x => x / AU))),
      comp_a := some vcomp_a,
      comp_c := some vcomp_c,
      fSigma := some vfSigma,
      gamma_norm := some vgamma_norm,
      gamma_tot := some vgamma_tot,
      m_dot_a_chem_gas := some vmdacg,
      m_dot_a_chem_peb := some vmdacp,
      m_dot_a_gas := some vmdag,
      m_dot_a_peb := some vmdap,
      m_dot_c_chem_gas := some vmdccg,
      m_dot_c_chem_peb := some vmdccp,
      m_dot_c_gas := some vmdcg,
      m_dot_c_peb := some vmdcp,
      m_dot_gas := some vmdg,
      m_dot_peb := some vmdp,
      peb_iso := some vpeb_iso,
      pebble_flux := some vpebble_flux,
      regime_gas := some vregime_gas,
      regime_peb := some vregime_peb,
      sigma_g := some vsigma_g,
      sigma_peb := some vsigma_peb,
      t := some (vt.map (fun x => x / Myr)),
      tau_m := some vtau_m,
      units := some vunits } := by
  simp only [load_planet, get_node_planet, except_ok_bind, hM, hM_a, hM_c,
    hM_z_gas, hM_z_peb, hT, ha_p, hcomp_a, hcomp_c, hfSigma, hgamma_norm,
    hgamma_tot, hmdacg, hmdacp, hmdag, hmdap, hmdccg, hmdccp, hmdcg, hmdcp,
    hmdg, hmdp, hpeb_iso, hpebble_flux, hregime_gas, hregime_peb, hsigma_g,
    hsigma_peb, ht, htau_m, hunits]

/-- C1: for every valid input file, the record `load_planet` returns has
`a_p` equal to the stored raw array divided element-wise by the
astronomical-unit constant `AU` and `t` equal to the stored raw array
divided element-wise by the mega-year constant `Myr`, while every other
enumerated field is stored verbatim as read. -/
theorem load_rescales_a_p_and_t_only (s : Planet_class) (g : H5Group)
    {vM vM_a vM_c vM_z_gas vM_z_peb vT va_p vfSigma vgamma_norm vgamma_tot
      vmdacg vmdacp vmdag vmdap vmdccg vmdccp vmdcg vmdcp vmdg vmdp
      vpeb_iso vpebble_flux vregime_gas vregime_peb vsigma_g vsigma_peb
      vt vtau_m : List ℚ}
    {vcomp_a vcomp_c : Comp3} {vunits : List String}
    (hM : readArr1 g "M" = Except.ok vM)
    (hM_a : readArr1 g "M_a" = Except.ok vM_a)
    (hM_c : readArr1 g "M_c" = Except.ok vM_c)
    (hM_z_gas : readArr1 g "M_z_gas" = Except.ok vM_z_gas)
    (hM_z_peb : readArr1 g "M_z_peb" = Except.ok vM_z_peb)
    (hT : readArr1 g "T" = Except.ok vT)
    (ha_p : readArr1 g "a_p" = Except.ok va_p)
    (hcomp_a : readArr3 g "comp_a" = Except.ok vcomp_a)
    (hcomp_c : readArr3 g "comp_c" = Except.ok vcomp_c)
    (hfSigma : readArr1 g "fSigma" = Except.ok vfSigma)
    (hgamma_norm : readArr1 g "gamma_norm" = Except.ok vgamma_norm)
    (hgamma_tot : readArr1 g "gamma_tot" = Except.ok vgamma_tot)
    (hmdacg : readArr1 g "m_dot_a_chem_gas" = Except.ok vmdacg)
    (hmdacp : readArr1 g "m_dot_a_chem_peb" = Except.ok vmdacp)
    (hmdag : readArr1 g "m_dot_a_gas" = Except.ok vmdag)
    (hmdap : readArr1 g "m_dot_a_peb" = Except.ok vmdap)
    (hmdccg : readArr1 g "m_dot_c_chem_gas" = Except.ok vmdccg)
    (hmdccp : readArr1 g "m_dot_c_chem_peb" = Except.ok vmdccp)
    (hmdcg : readArr1 g "m_dot_c_gas" = Except.ok vmdcg)
    (hmdcp : readArr1 g "m_dot_c_peb" = Except.ok vmdcp)
    (hmdg : readArr1 g "m_dot_gas" = Except.ok vmdg)
    (hmdp : readArr1 g "m_dot_peb" = Except.ok vmdp)
    (hpeb_iso : readArr1 g "peb_iso" = Except.ok vpeb_iso)
    (hpebble_flux : readArr1 g "pebble_flux" = Except.ok vpebble_flux)
    (hregime_gas : readArr1 g "regime_gas" = Except.ok vregime_gas)
    (hregime_peb : readArr1 g "regime_peb" = Except.ok vregime_peb)
    (hsigma_g : readArr1 g "sigma_g" = Except.ok vsigma_g)
    (hsigma_peb : readArr1 g "sigma_peb" = Except.ok vsigma_peb)
    (ht : readArr1 g "t" = Except.ok vt)
    (htau_m : readArr1 g "tau_m" = Except.ok vtau_m)
    (hunits : readSarr g "units" = Except.ok vunits) :
    load_planet s (some ⟨some g⟩) = Except.ok { s with
      disc_quantities := some ((dirList g).filter (fun q => q.front != '_')),
      M := some vM,
      M_a := some vM_a,
      M_c := some vM_c,
      M_z_gas := some vM_z_gas,
      M_z_peb := some vM_z_peb,
      T := some vT,
      a_p := some (PyValue.arr1 (va_p.map (fun x => x / AU))),
      comp_a := some vcomp_a,
      comp_c := some vcomp_c,
      fSigma := some vfSigma,
      gamma_norm := some vgamma_norm,
      gamma_tot := some vgamma_tot,
      m_dot_a_chem_gas := some vmdacg,
      m_dot_a_chem_peb := some vmdacp,
      m_dot_a_gas := some vmdag,
      m_dot_a_peb := some vmdap,
      m_dot_c_chem_gas := some vmdccg,
      m_dot_c_chem_peb := some vmdccp,
      m_dot_c_gas := some vmdcg,
      m_dot_c_peb := some vmdcp,
      m_dot_gas := some vmdg,
      m_dot_peb := some vmdp,
      peb_iso := some vpeb_iso,
      pebble_flux := some vpebble_flux,
      regime_gas := some vregime_gas,
      regime_peb := some vregime_peb,
      sigma_g := some vsigma_g,
      sigma_peb := some vsigma_peb,
      t := some (vt.map (fun x => x / Myr)),
      tau_m := some vtau_m,
      units := some vunits } :=
  load_planet_ok hM hM_a hM_c hM_z_gas hM_z_peb hT ha_p hcomp_a hcomp_c
    hfSigma hgamma_norm hgamma_tot hmdacg hmdacp hmdag hmdap hmdccg hmdccp
    hmdcg hmdcp hmdg hmdp hpeb_iso hpebble_flux hregime_gas hregime_peb
    hsigma_g hsigma_peb ht htau_m hunits

/-- C1 witness: loading the concrete sample file yields `M` verbatim,
`a_p` divided by `AU`, and `t` divided by `Myr`. -/
theorem load_rescales_a_p_and_t_only_witness :
    (load_planet {} (some ⟨some sampleGroup⟩)).toOption.map
        (fun r => (r.M, r.a_p, r.t)) =
      some (some [1], some (PyValue.arr1 [7 / AU]), some [27 / Myr]) := by
  rw [load_rescales_a_p_and_t_only {} sampleGroup rfl rfl rfl rfl rfl rfl
    rfl rfl rfl rfl rfl rfl rfl rfl rfl rfl rfl rfl rfl rfl rfl rfl rfl
    rfl rfl rfl rfl rfl rfl rfl rfl]
  rfl

/-- C10: every successful load sets `disc_quantities` to the list of the
`/planet` group's member names that do not begin with an underscore (in
the alphabetical order `dir` produces), before any other field. -/
theorem load_sets_disc_quantities (s : Planet_class) (g : H5Group)
    {vM vM_a vM_c vM_z_gas vM_z_peb vT va_p vfSigma vgamma_norm vgamma_tot
      vmdacg vmdacp vmdag vmdap vmdccg vmdccp vmdcg vmdcp vmdg vmdp
      vpeb_iso vpebble_flux vregime_gas vregime_peb vsigma_g vsigma_peb
      vt vtau_m : List ℚ}
    {vcomp_a vcomp_c : Comp3} {vunits : List String}
    (hM : readArr1 g "M" = Except.ok vM)
    (hM_a : readArr1 g "M_a" = Except.ok vM_a)
    (hM_c : readArr1 g "M_c" = Except.ok vM_c)
    (hM_z_gas : readArr1 g "M_z_gas" = Except.ok vM_z_gas)
    (hM_z_peb : readArr1 g "M_z_peb" = Except.ok vM_z_peb)
    (hT : readArr1 g "T" = Except.ok vT)
    (ha_p : readArr1 g "a_p" = Except.ok va_p)
    (hcomp_a : readArr3 g "comp_a" = Except.ok vcomp_a)
    (hcomp_c : readArr3 g "comp_c" = Except.ok vcomp_c)
    (hfSigma : readArr1 g "fSigma" = Except.ok vfSigma)
    (hgamma_norm : readArr1 g "gamma_norm" = Except.ok vgamma_norm)
    (hgamma_tot : readArr1 g "gamma_tot" = Except.ok vgamma_tot)
    (hmdacg : readArr1 g "m_dot_a_chem_gas" = Except.ok vmdacg)
    (hmdacp : readArr1 g "m_dot_a_chem_peb" = Except.ok vmdacp)
    (hmdag : readArr1 g "m_dot_a_gas" = Except.ok vmdag)
    (hmdap : readArr1 g "m_dot_a_peb" = Except.ok vmdap)
    (hmdccg : readArr1 g "m_dot_c_chem_gas" = Except.ok vmdccg)
    (hmdccp : readArr1 g "m_dot_c_chem_peb" = Except.ok vmdccp)
    (hmdcg : readArr1 g "m_dot_c_gas" = Except.ok vmdcg)
    (hmdcp : readArr1 g "m_dot_c_peb" = Except.ok vmdcp)
    (hmdg : readArr1 g "m_dot_gas" = Except.ok vmdg)
    (hmdp : readArr1 g "m_dot_peb" = Except.ok vmdp)
    (hpeb_iso : readArr1 g "peb_iso" = Except.ok vpeb_iso)
    (hpebble_flux : readArr1 g "pebble_flux" = Except.ok vpebble_flux)
    (hregime_gas : readArr1 g "regime_gas" = Except.ok vregime_gas)
    (hregime_peb : readArr1 g "regime_peb" = Except.ok vregime_peb)
    (hsigma_g : readArr1 g "sigma_g" = Except.ok vsigma_g)
    (hsigma_peb : readArr1 g "sigma_peb" = Except.ok vsigma_peb)
    (ht : readArr1 g "t" = Except.ok vt)
    (htau_m : readArr1 g "tau_m" = Except.ok vtau_m)
    (hunits : readSarr g "units" = Except.ok vunits) :
    (load_planet s (some ⟨some g⟩)).toOption.map
        Planet_class.disc_quantities =
      some (some ((dirList g).filter (fun q => q.front != '_'))) := by
  rw [load_planet_ok hM hM_a hM_c hM_z_gas hM_z_peb hT ha_p hcomp_a hcomp_c
    hfSigma hgamma_norm hgamma_tot hmdacg hmdacp hmdag hmdap hmdccg hmdccp
    hmdcg hmdcp hmdg hmdp hpeb_iso hpebble_flux hregime_gas hregime_peb
    hsigma_g hsigma_peb ht htau_m hunits]
  rfl

/-- C10 witness: the sample file's `disc_quantities` is the alphabetical
list of all 31 member names, none of which begins with an underscore. -/
theorem load_sets_disc_quantities_witness :
    (load_planet {} (some ⟨some sampleGroup⟩)).toOption.map
        Planet_class.disc_quantities =
      some (some ["M", "M_a", "M_c", "M_z_gas", "M_z_peb", "T", "a_p",
        "comp_a", "comp_c", "fSigma", "gamma_norm", "gamma_tot",
        "m_dot_a_chem_gas", "m_dot_a_chem_peb", "m_dot_a_gas",
        "m_dot_a_peb", "m_dot_c_chem_gas", "m_dot_c_chem_peb",
        "m_dot_c_gas", "m_dot_c_peb", "m_dot_gas", "m_dot_peb", "peb_iso",
        "pebble_flux", "regime_gas", "regime_peb", "sigma_g", "sigma_peb",
        "t", "tau_m", "units"]) := by
  have h := load_sets_disc_quantities {} sampleGroup rfl rfl rfl rfl rfl
    rfl rfl rfl rfl rfl rfl rfl rfl rfl rfl rfl rfl rfl rfl rfl rfl rfl
    rfl rfl rfl rfl rfl rfl rfl rfl rfl
  exact h.trans (by decide)

/- ----------------------------------------------------------------- -/
/- Claims about the configuration merge                               -/
/- ----------------------------------------------------------------- -/

/-- C2: `load_parameters_from_config` modifies exactly the thirteen
recognized fields and no others; in particular it overwrites `a_p` —
whatever it held, including the loaded, AU-rescaled series — with the
evaluated value looked up in the configuration's planet section. -/
theorem config_merge_exact_frame (s : Planet_class) (config : Config) :
    ((load_parameters_from_config s config).disc_quantities =
        s.disc_quantities ∧
      (load_parameters_from_config s config).M = s.M ∧
      (load_parameters_from_config s config).M_a = s.M_a ∧
      (load_parameters_from_config s config).M_c = s.M_c ∧
      (load_parameters_from_config s config).M_z_gas = s.M_z_gas ∧
      (load_parameters_from_config s config).M_z_peb = s.M_z_peb ∧
      (load_parameters_from_config s config).T = s.T ∧
      (load_parameters_from_config s config).comp_a = s.comp_a ∧
      (load_parameters_from_config s config).comp_c = s.comp_c ∧
      (load_parameters_from_config s config).fSigma = s.fSigma ∧
      (load_parameters_from_config s config).gamma_norm = s.gamma_norm ∧
      (load_parameters_from_config s config).gamma_tot = s.gamma_tot ∧
      (load_parameters_from_config s config).m_dot_a_chem_gas =
        s.m_dot_a_chem_gas ∧
      (load_parameters_from_config s config).m_dot_a_chem_peb =
        s.m_dot_a_chem_peb ∧
      (load_parameters_from_config s config).m_dot_a_gas = s.m_dot_a_gas ∧
      (load_parameters_from_config s config).m_dot_a_peb = s.m_dot_a_peb ∧
      (load_parameters_from_config s config).m_dot_c_chem_gas =
        s.m_dot_c_chem_gas ∧
      (load_parameters_from_config s config).m_dot_c_chem_peb =
        s.m_dot_c_chem_peb ∧
      (load_parameters_from_config s config).m_dot_c_gas = s.m_dot_c_gas ∧
      (load_parameters_from_config s config).m_dot_c_peb = s.m_dot_c_peb ∧
      (load_parameters_from_config s config).m_dot_gas = s.m_dot_gas ∧
      (load_parameters_from_config s config).m_dot_peb = s.m_dot_peb ∧
      (load_parameters_from_config s config).peb_iso = s.peb_iso ∧
      (load_parameters_from_config s config).pebble_flux = s.pebble_flux ∧
      (load_parameters_from_config s config).regime_gas = s.regime_gas ∧
      (load_parameters_from_config s config).regime_peb = s.regime_peb ∧
      (load_parameters_from_config s config).sigma_g = s.sigma_g ∧
      (load_parameters_from_config s config).sigma_peb = s.sigma_peb ∧
      (load_parameters_from_config s config).t = s.t ∧
      (load_parameters_from_config s config).tau_m = s.tau_m ∧
      (load_parameters_from_config s config).units = s.units) ∧
    ((load_parameters_from_config s config).matter_removal =
        some (eval_kwargs (((config.sections.lookup "config_planet").getD
          []).lookup "matter_removal")) ∧
      (load_parameters_from_config s config).use_heat_torque =
        some (eval_kwargs (((config.sections.lookup "config_planet").getD
          []).lookup "use_heat_torque")) ∧
      (load_parameters_from_config s config).use_dynamical_torque =
        some (eval_kwargs (((config.sections.lookup "config_planet").getD
          []).lookup "use_dynamical_torque")) ∧
      (load_parameters_from_config s config).migration =
        some (eval_kwargs (((config.sections.lookup "config_planet").getD
          []).lookup "migration")) ∧
      (load_parameters_from_config s config).M0_fact =
        some (eval_kwargs (((config.sections.lookup "config_planet").getD
          []).lookup "M0_fact")) ∧
      (load_parameters_from_config s config).a_p =
        some (eval_kwargs (((config.sections.lookup "config_planet").getD
          []).lookup "a_p")) ∧
      (load_parameters_from_config s config).t_0 =
        some (eval_kwargs (((config.sections.lookup "config_planet").getD
          []).lookup "t_0")) ∧
      (load_parameters_from_config s config).rho_c =
        some (eval_kwargs (((config.sections.lookup "config_planet").getD
          []).lookup "rho_c")) ∧
      (load_parameters_from_config s config).r_in =
        some (eval_kwargs (((config.sections.lookup "config_planet").getD
          []).lookup "r_in")) ∧
      (load_parameters_from_config s config).keep_peb_iso =
        some (eval_kwargs (((config.sections.lookup "config_planet").getD
          []).lookup "keep_peb_iso")) ∧
      (load_parameters_from_config s config).use_pebiso_diffusion =
        some (eval_kwargs (((config.sections.lookup "config_planet").getD
          []).lookup "use_pebiso_diffusion")) ∧
      (load_parameters_from_config s config).R_pla =
        some (eval_kwargs
          (((config.sections.lookup "config_planetesimal_accretion").getD
            []).lookup "R_pla")) ∧
      (load_parameters_from_config s config).rho_pla =
        some (eval_kwargs
          (((config.sections.lookup "config_planetesimal_accretion").getD
            []).lookup "rho_pla"))) :=
  ⟨⟨rfl, rfl, rfl, rfl, rfl, rfl, rfl, rfl, rfl, rfl, rfl, rfl, rfl, rfl,
    rfl, rfl, rfl, rfl, rfl, rfl, rfl, rfl, rfl, rfl, rfl, rfl, rfl, rfl,
    rfl, rfl, rfl⟩,
   ⟨rfl, rfl, rfl, rfl, rfl, rfl, rfl, rfl, rfl, rfl, rfl, rfl, rfl⟩⟩

/-- C4: each of the thirteen options is read only from its own section —
the eleven planet options from `config_planet` and the two
planetesimal-accretion options from `config_planetesimal_accretion`, an
absent key yielding null (no cross-contamination) — and a configuration
omitting both recognized sections leaves all thirteen fields null. -/
theorem config_sections_isolated (s : Planet_class) (config : Config) :
    ((load_parameters_from_config s config).matter_removal =
        some (eval_kwargs (((config.sections.lookup "config_planet").getD
          []).lookup "matter_removal")) ∧
      (load_parameters_from_config s config).use_heat_torque =
        some (eval_kwargs (((config.sections.lookup "config_planet").getD
          []).lookup "use_heat_torque")) ∧
      (load_parameters_from_config s config).use_dynamical_torque =
        some (eval_kwargs (((config.sections.lookup "config_planet").getD
          []).lookup "use_dynamical_torque")) ∧
      (load_parameters_from_config s config).migration =
        some (eval_kwargs (((config.sections.lookup "config_planet").getD
          []).lookup "migration")) ∧
      (load_parameters_from_config s config).M0_fact =
        some (eval_kwargs (((config.sections.lookup "config_planet").getD
          []).lookup "M0_fact")) ∧
      (load_parameters_from_config s config).a_p =
        some (eval_kwargs (((config.sections.lookup "config_planet").getD
          []).lookup "a_p")) ∧
      (load_parameters_from_config s config).t_0 =
        some (eval_kwargs (((config.sections.lookup "config_planet").getD
          []).lookup "t_0")) ∧
      (load_parameters_from_config s config).rho_c =
        some (eval_kwargs (((config.sections.lookup "config_planet").getD
          []).lookup "rho_c")) ∧
      (load_parameters_from_config s config).r_in =
        some (eval_kwargs (((config.sections.lookup "config_planet").getD
          []).lookup "r_in")) ∧
      (load_parameters_from_config s config).keep_peb_iso =
        some (eval_kwargs (((config.sections.lookup "config_planet").getD
          []).lookup "keep_peb_iso")) ∧
      (load_parameters_from_config s config).use_pebiso_diffusion =
        some (eval_kwargs (((config.sections.lookup "config_planet").getD
          []).lookup "use_pebiso_diffusion")) ∧
      (load_parameters_from_config s config).R_pla =
        some (eval_kwargs
          (((config.sections.lookup "config_planetesimal_accretion").getD
            []).lookup "R_pla")) ∧
      (load_parameters_from_config s config).rho_pla =
        some (eval_kwargs
          (((config.sections.lookup "config_planetesimal_accretion").getD
            []).lookup "rho_pla"))) ∧
    (config.sections.lookup "config_planet" = Option.none →
      config.sections.lookup "config_planetesimal_accretion" =
        Option.none →
      (load_parameters_from_config s config).matter_removal =
          some PyValue.none ∧
        (load_parameters_from_config s config).use_heat_torque =
          some PyValue.none ∧
        (load_parameters_from_config s config).use_dynamical_torque =
          some PyValue.none ∧
        (load_parameters_from_config s config).migration =
          some PyValue.none ∧
        (load_parameters_from_config s config).M0_fact =
          some PyValue.none ∧
        (load_parameters_from_config s config).a_p = some PyValue.none ∧
        (load_parameters_from_config s config).t_0 = some PyValue.none ∧
        (load_parameters_from_config s config).rho_c = some PyValue.none ∧
        (load_parameters_from_config s config).r_in = some PyValue.none ∧
        (load_parameters_from_config s config).keep_peb_iso =
          some PyValue.none ∧
        (load_parameters_from_config s config).use_pebiso_diffusion =
          some PyValue.none ∧
        (load_parameters_from_config s config).R_pla =
          some PyValue.none ∧
        (load_parameters_from_config s config).rho_pla =
          some PyValue.none) := by
  refine ⟨⟨rfl, rfl, rfl, rfl, rfl, rfl, rfl, rfl, rfl, rfl, rfl, rfl,
    rfl⟩, fun h1 h2 => ?_⟩
  simp [load_parameters_from_config, h1, h2, eval_kwargs]

/-- C4 witness: a configuration with no sections leaves all thirteen
fields null. -/
theorem config_sections_isolated_witness :
    (load_parameters_from_config {} ⟨[]⟩).matter_removal =
        some PyValue.none ∧
      (load_parameters_from_config {} ⟨[]⟩).use_heat_torque =
        some PyValue.none ∧
      (load_parameters_from_config {} ⟨[]⟩).use_dynamical_torque =
        some PyValue.none ∧
      (load_parameters_from_config {} ⟨[]⟩).migration =
        some PyValue.none ∧
      (load_parameters_from_config {} ⟨[]⟩).M0_fact = some PyValue.none ∧
      (load_parameters_from_config {} ⟨[]⟩).a_p = some PyValue.none ∧
      (load_parameters_from_config {} ⟨[]⟩).t_0 = some PyValue.none ∧
      (load_parameters_from_config {} ⟨[]⟩).rho_c = some PyValue.none ∧
      (load_parameters_from_config {} ⟨[]⟩).r_in = some PyValue.none ∧
      (load_parameters_from_config {} ⟨[]⟩).keep_peb_iso =
        some PyValue.none ∧
      (load_parameters_from_config {} ⟨[]⟩).use_pebiso_diffusion =
        some PyValue.none ∧
      (load_parameters_from_config {} ⟨[]⟩).R_pla = some PyValue.none ∧
      (load_parameters_from_config {} ⟨[]⟩).rho_pla = some PyValue.none :=
  (config_sections_isolated {} ⟨[]⟩).2 rfl rfl

/-- C6: with `config_planet: {migration: "False", a_p: "0.1"}` the
resulting record holds the typed values — boolean `False` for
`migration` and the number `0.1` for `a_p`, not the strings. -/
theorem config_values_evaluated_typed (s : Planet_class) :
    (load_parameters_from_config s
        ⟨[("config_planet",
            [("migration", "False"), ("a_p", "0.1")])]⟩).migration =
      some (PyValue.bool false) ∧
    (load_parameters_from_config s
        ⟨[("config_planet",
            [("migration", "False"), ("a_p", "0.1")])]⟩).a_p =
      some (PyValue.num (1 / 10)) := by
  constructor
  · rfl
  · have h : (load_parameters_from_config s
        ⟨[("config_planet",
            [("migration", "False"), ("a_p", "0.1")])]⟩).a_p =
        some (PyValue.num ((1 : ℚ) *
          ((digitsVal ['0'] : ℚ) +
            (digitsVal ['1'] : ℚ) / 10 ^ (['1'] : List Char).length))) := rfl
    rw [h]
    norm_num [digitsVal, show '0'.toNat = 48 from rfl,
      show '1'.toNat = 49 from rfl]

/-- C9: when the planet section has no `a_p` key (in particular when the
section is absent), the constructed record's `a_p` is null — the
unconditional overwrite discards the loaded, rescaled series. -/
theorem a_p_overwrite_unconditional (file : Option H5File)
    (config : Config) (s' : Planet_class)
    (hap : (((config.sections.lookup "config_planet").getD []).lookup
      "a_p") = Option.none)
    (hok : Planet_class_init file config = Except.ok s') :
    s'.a_p = some PyValue.none := by
  unfold Planet_class_init at hok
  cases hload : load_planet {} file with
  | error e =>
      rw [hload] at hok
      exact absurd hok (fun hh => Except.noConfusion hh)
  | ok s0 =>
      rw [hload] at hok
      have hs' : load_parameters_from_config s0 config = s' := by
        have h2 : Except.ok (load_parameters_from_config s0 config) =
            Except.ok s' := hok
        injection h2
      rw [← hs']
      show some (eval_kwargs
        ((((config.sections.lookup "config_planet").getD [])).lookup
          "a_p")) = some PyValue.none
      rw [hap]
      rfl

/-- C9 witness: constructing from the sample file and an empty
configuration leaves `a_p` null in spite of the loaded series. -/
theorem a_p_overwrite_unconditional_witness :
    (Planet_class_init (some sampleFile) ⟨[]⟩).toOption.map
        Planet_class.a_p = some (some PyValue.none) := by
  obtain ⟨s', hs'⟩ : ∃ s', Planet_class_init (some sampleFile) ⟨[]⟩ =
      Except.ok s' := ⟨_, rfl⟩
  rw [hs']
  have h := a_p_overwrite_unconditional (some sampleFile) ⟨[]⟩ s' rfl hs'
  simp [Except.toOption, h]

/- ----------------------------------------------------------------- -/
/- All-or-nothing loading and handle release                          -/
/- ----------------------------------------------------------------- -/

theorem readArr1_ok_lookup {g : H5Group} {n : String} {v : List ℚ}
    (h : readArr1 g n = Except.ok v) : (g.nodes.lookup n).isSome := by
  unfold readArr1 at h
  cases hl : g.nodes.lookup n with
  | none =>
      rw [hl] at h
      exact absurd h (fun hh => Except.noConfusion hh)
  | some w => simp

theorem readArr3_ok_lookup {g : H5Group} {n : String} {v : Comp3}
    (h : readArr3 g n = Except.ok v) : (g.nodes.lookup n).isSome := by
  unfold readArr3 at h
  cases hl : g.nodes.lookup n with
  | none =>
      rw [hl] at h
      exact absurd h (fun hh => Except.noConfusion hh)
  | some w => simp

theorem readSarr_ok_lookup {g : H5Group} {n : String} {v : List String}
    (h : readSarr g n = Except.ok v) : (g.nodes.lookup n).isSome := by
  unfold readSarr at h
  cases hl : g.nodes.lookup n with
  | none =>
      rw [hl] at h
      exact absurd h (fun hh => Except.noConfusion hh)
  | some w => simp

theorem load_ok_nodes {s : Planet_class} {g : H5Group} {s' : Planet_class}
    (h : load_planet s (some ⟨some g⟩) = Except.ok s') :
    ∀ n ∈ requiredNodes, (g.nodes.lookup n).isSome := by
  unfold load_planet at h
  obtain ⟨f, hf, h⟩ := exceptBind_ok h
  have hf2 : Except.ok (⟨some g⟩ : H5File) = Except.ok f := hf
  have hf3 : (⟨some g⟩ : H5File) = f := by injection hf2
  subst hf3
  obtain ⟨g2, hg2, h⟩ := exceptBind_ok h
  have hg22 : Except.ok g = Except.ok g2 := hg2
  have hg3 : g = g2 := by injection hg22
  subst hg3
  obtain ⟨vM, hM, h⟩ := exceptBind_ok h
  obtain ⟨vM_a, hM_a, h⟩ := exceptBind_ok h
  obtain ⟨vM_c, hM_c, h⟩ := exceptBind_ok h
  obtain ⟨vM_z_gas, hM_z_gas, h⟩ := exceptBind_ok h
  obtain ⟨vM_z_peb, hM_z_peb, h⟩ := exceptBind_ok h
  obtain ⟨vT, hT, h⟩ := exceptBind_ok h
  obtain ⟨va_p, ha_p, h⟩ := exceptBind_ok h
  obtain ⟨vcomp_a, hcomp_a, h⟩ := exceptBind_ok h
  obtain ⟨vcomp_c, hcomp_c, h⟩ := exceptBind_ok h
  obtain ⟨vfSigma, hfSigma, h⟩ := exceptBind_ok h
  obtain ⟨vgamma_norm, hgamma_norm, h⟩ := exceptBind_ok h
  obtain ⟨vgamma_tot, hgamma_tot, h⟩ := exceptBind_ok h
  obtain ⟨vmdacg, hmdacg, h⟩ := exceptBind_ok h
  obtain ⟨vmdacp, hmdacp, h⟩ := exceptBind_ok h
  obtain ⟨vmdag, hmdag, h⟩ := exceptBind_ok h
  obtain ⟨vmdap, hmdap, h⟩ := exceptBind_ok h
  obtain ⟨vmdccg, hmdccg, h⟩ := exceptBind_ok h
  obtain ⟨vmdccp, hmdccp, h⟩ := exceptBind_ok h
  obtain ⟨vmdcg, hmdcg, h⟩ := exceptBind_ok h
  obtain ⟨vmdcp, hmdcp, h⟩ := exceptBind_ok h
  obtain ⟨vmdg, hmdg, h⟩ := exceptBind_ok h
  obtain ⟨vmdp, hmdp, h⟩ := exceptBind_ok h
  obtain ⟨vpeb_iso, hpeb_iso, h⟩ := exceptBind_ok h
  obtain ⟨vpebble_flux, hpebble_flux, h⟩ := exceptBind_ok h
  obtain ⟨vregime_gas, hregime_gas, h⟩ := exceptBind_ok h
  obtain ⟨vregime_peb, hregime_peb, h⟩ := exceptBind_ok h
  obtain ⟨vsigma_g, hsigma_g, h⟩ := exceptBind_ok h
  obtain ⟨vsigma_peb, hsigma_peb, h⟩ := exceptBind_ok h
  obtain ⟨vt, ht, h⟩ := exceptBind_ok h
  obtain ⟨vtau_m, htau_m, h⟩ := exceptBind_ok h
  obtain ⟨vunits, hunits, h⟩ := exceptBind_ok h
  intro n hn
  fin_cases hn
  · exact readArr1_ok_lookup hM
  · exact readArr1_ok_lookup hM_a
  · exact readArr1_ok_lookup hM_c
  · exact readArr1_ok_lookup hM_z_gas
  · exact readArr1_ok_lookup hM_z_peb
  · exact readArr1_ok_lookup hT
  · exact readArr1_ok_lookup ha_p
  · exact readArr3_ok_lookup hcomp_a
  · exact readArr3_ok_lookup hcomp_c
  · exact readArr1_ok_lookup hfSigma
  · exact readArr1_ok_lookup hgamma_norm
  · exact readArr1_ok_lookup hgamma_tot
  · exact readArr1_ok_lookup hmdacg
  · exact readArr1_ok_lookup hmdacp
  · exact readArr1_ok_lookup hmdag
  · exact readArr1_ok_lookup hmdap
  · exact readArr1_ok_lookup hmdccg
  · exact readArr1_ok_lookup hmdccp
  · exact readArr1_ok_lookup hmdcg
  · exact readArr1_ok_lookup hmdcp
  · exact readArr1_ok_lookup hmdg
  · exact readArr1_ok_lookup hmdp
  · exact readArr1_ok_lookup hpeb_iso
  · exact readArr1_ok_lookup hpebble_flux
  · exact readArr1_ok_lookup hregime_gas
  · exact readArr1_ok_lookup hregime_peb
  · exact readArr1_ok_lookup hsigma_g
  · exact readArr1_ok_lookup hsigma_peb
  · exact readArr1_ok_lookup ht
  · exact readArr1_ok_lookup htau_m
  · exact readSarr_ok_lookup hunits

/-- C5: when the file cannot be opened, or the `/planet` group is
absent, or any required node is missing, `load_planet` raises instead of
returning a record — the partially filled record is never exposed. -/
theorem load_all_or_nothing (s : Planet_class) (file : Option H5File)
    (h : file = Option.none ∨
      (∃ f, file = some f ∧ f.planet = Option.none) ∨
      (∃ f g, file = some f ∧ f.planet = some g ∧
        ∃ n ∈ requiredNodes, g.nodes.lookup n = Option.none)) :
    isError (load_planet s file) = true := by
  rcases h with rfl | ⟨f, rfl, hpl⟩ | ⟨f, g, rfl, hpl, n, hn, hmiss⟩
  · rfl
  · obtain ⟨po⟩ := f
    have hpo : po = Option.none := hpl
    subst hpo
    rfl
  · obtain ⟨po⟩ := f
    have hpo : po = some g := hpl
    subst hpo
    cases hres : load_planet s (some ⟨some g⟩) with
    | error e => rfl
    | ok s2 =>
        exfalso
        have hsome := load_ok_nodes hres n hn
        rw [hmiss] at hsome
        exact absurd hsome (by simp)

/-- C5 witness: a file whose `/planet` group lacks the required node `t`
makes the load raise. -/
theorem load_all_or_nothing_witness :
    isError (load_planet {} (some ⟨some sampleGroupMissingT⟩)) = true :=
  load_all_or_nothing {} (some ⟨some sampleGroupMissingT⟩)
    (Or.inr (Or.inr ⟨⟨some sampleGroupMissingT⟩, sampleGroupMissingT, rfl,
      rfl, "t", by decide, by decide⟩))

/-- C8: the file handle `load_planet` opens is released on every exit
path — the tracked handle count is unchanged whether the load returns a
record or raises, and the tracked run computes the same result. -/
theorem file_handle_released_all_paths (s : Planet_class)
    (file : Option H5File) (handles : Nat) :
    (load_planet_tracked s file handles).2 = handles ∧
    (load_planet_tracked s file handles).1 = load_planet s file := by
  cases file with
  | none => exact ⟨rfl, rfl⟩
  | some f => exact ⟨by simp [load_planet_tracked], rfl⟩
